import Mathlib

/-
Verification of the generic COM-style enumerator `ProfilerEnum` from
`src/vm/profilingenumerators.h` (a one-size-fits-all template implementation of
the `IEnumXXX` pull protocol used by the profiling API).

The embedding translates the template member functions into pure Lean functions
over an explicit state record. Pointer arguments that may be NULL are modelled
as `Bool` presence flags (for out-parameters the caller merely supplies or
withholds a slot) together with an `Option`-valued component of the result
describing what, if anything, was written through the pointer. The output
buffer of `Next` is modelled by the list of elements the copy loop writes into
it, in order. `ULONG` arithmetic is modelled over `Nat`; the subtraction
`m_elements.Count() - m_currentElement` only occurs under the class invariant
`m_currentElement <= m_elements.Count()` (asserted in the source), where
unsigned and truncated natural subtraction agree.
-/

namespace ProfilingEnumerators

/-- HRESULT values returned by the enumerator protocol: `S_OK` (fully
satisfied), `S_FALSE` (partially satisfied), `E_INVALIDARG`, `E_OUTOFMEMORY`
and `E_NOINTERFACE` (capability not supported). -/
inductive HResult where
  | S_OK
  | S_FALSE
  | E_INVALIDARG
  | E_OUTOFMEMORY
  | E_NOINTERFACE
  deriving DecidableEq

/-- Interface identifiers (IIDs) are opaque; we model them as naturals. -/
abbrev IID := Nat

/-- The universal base capability `IID_IUnknown`. -/
def IID_IUnknown : IID := 0

/-- The state of a `ProfilerEnum< EnumInterface, Element >` object: the private
copy of the element sequence, the cursor `m_currentElement`, and the reference
count `m_refCount`. -/
structure ProfilerEnum (α : Type) where
  m_elements : List α
  m_currentElement : Nat
  m_refCount : Nat
  deriving DecidableEq

variable {α : Type}

/-- The element-by-element copy loop `m_elements[i] = (*elements)[i]` used by
the constructor to build the enumerator's own private copy of the source
sequence. -/
def copyElements : List α → List α
  | [] => []
  | x :: xs => x :: copyElements xs

/-- The constructor `ProfilerEnum(CDynArray<Element>* elements)`: deep-copies
the source sequence, `m_currentElement = 0`, `m_refCount = 1`. -/
def ProfilerEnum.construct (elements : List α) : ProfilerEnum α :=
  { m_elements := copyElements elements
    m_currentElement := 0
    m_refCount := 1 }

/-- What `QueryInterface` writes through `*pInterface`: the enumerator cast to
its specific interface, the enumerator cast to `IUnknown`, or `NULL`. -/
inductive QIWrite where
  | enumInterface
  | iunknown
  | nullPtr
  deriving DecidableEq

/-- Result of a `QueryInterface` call: the HRESULT, the updated object state,
and the value written through `*pInterface` (`none` means the slot was left
untouched). -/
structure QIResult (α : Type) where
  hr : HResult
  state : ProfilerEnum α
  written : Option QIWrite
  deriving DecidableEq

/-- `AddRef`: interlocked increment of `m_refCount`; returns the new count and
the updated state. -/
def ProfilerEnum.AddRef (s : ProfilerEnum α) : Nat × ProfilerEnum α :=
  (s.m_refCount + 1, { s with m_refCount := s.m_refCount + 1 })

/-- `Release`: interlocked decrement of `m_refCount`; when the count reaches
zero the object is destroyed (`none`); returns the remaining count. -/
def ProfilerEnum.Release (s : ProfilerEnum α) : Nat × Option (ProfilerEnum α) :=
  let refCount := s.m_refCount - 1
  (refCount, if refCount = 0 then none else some { s with m_refCount := refCount })

/-- `QueryInterface(id, pInterface)`: if `id` is the enumerator's own interface
IID or `IID_IUnknown`, write the corresponding cast of `this`, `AddRef`, and
return `S_OK`; otherwise write `NULL` and return `E_NOINTERFACE`. The template
parameter `pEnumInterfaceIID` is passed explicitly. -/
def ProfilerEnum.QueryInterface (s : ProfilerEnum α) (pEnumInterfaceIID id : IID) :
    QIResult α :=
  if pEnumInterfaceIID = id then
    { hr := HResult.S_OK, state := (s.AddRef).2, written := some QIWrite.enumInterface }
  else if IID_IUnknown = id then
    { hr := HResult.S_OK, state := (s.AddRef).2, written := some QIWrite.iunknown }
  else
    { hr := HResult.E_NOINTERFACE, state := s, written := some QIWrite.nullPtr }

/-- Result of a `Next` call: the HRESULT, the updated state, the elements the
copy loop wrote into the caller's buffer (in order), and the value written
through `*elementsFetched` (`none` means nothing was written there). -/
structure NextResult (α : Type) where
  hr : HResult
  state : ProfilerEnum α
  written : List α
  elementsFetched : Option Nat
  deriving DecidableEq

/-- `Next(elementsRequested, elements, elementsFetched)`: reject
`elementsRequested > 1` with a NULL `elementsFetched`; zero requests always
succeed without touching the buffer; a NULL buffer for a nonzero request is
invalid; otherwise copy `min(elementsRequested, Count() - m_currentElement)`
elements starting at the cursor, advance the cursor, report the fetched count
if a slot was given, and return `S_FALSE` when fewer than requested were
copied, else `S_OK`. -/
def ProfilerEnum.Next (s : ProfilerEnum α) (elementsRequested : Nat)
    (elementsPresent : Bool) (elementsFetchedPresent : Bool) : NextResult α :=
  if elementsFetchedPresent = false ∧ 1 < elementsRequested then
    { hr := HResult.E_INVALIDARG, state := s, written := [], elementsFetched := none }
  else if elementsRequested = 0 then
    { hr := HResult.S_OK, state := s, written := []
      elementsFetched := if elementsFetchedPresent then some 0 else none }
  else if elementsPresent = false then
    { hr := HResult.E_INVALIDARG, state := s, written := [], elementsFetched := none }
  else
    let elementsToCopy := min elementsRequested (s.m_elements.length - s.m_currentElement)
    { hr := if elementsToCopy < elementsRequested then HResult.S_FALSE else HResult.S_OK
      state := { s with m_currentElement := s.m_currentElement + elementsToCopy }
      written := (s.m_elements.drop s.m_currentElement).take elementsToCopy
      elementsFetched := if elementsFetchedPresent then some elementsToCopy else none }

/-- `GetCount(count)`: `E_INVALIDARG` on a NULL out-pointer, else writes
`Count() - m_currentElement` (the remaining element count). The state is
returned unchanged. -/
def ProfilerEnum.GetCount (s : ProfilerEnum α) (countPresent : Bool) :
    HResult × ProfilerEnum α × Option Nat :=
  if countPresent = false then (HResult.E_INVALIDARG, s, none)
  else (HResult.S_OK, s, some (s.m_elements.length - s.m_currentElement))

/-- `Skip(count)`: advance the cursor by
`min(count, Count() - m_currentElement)`; `S_FALSE` when fewer elements were
skipped than requested, else `S_OK`. -/
def ProfilerEnum.Skip (s : ProfilerEnum α) (count : Nat) :
    HResult × ProfilerEnum α :=
  let elementsToSkip := min count (s.m_elements.length - s.m_currentElement)
  ((if elementsToSkip < count then HResult.S_FALSE else HResult.S_OK),
   { s with m_currentElement := s.m_currentElement + elementsToSkip })

/-- `Reset()`: set the cursor back to zero; always `S_OK`. -/
def ProfilerEnum.Reset (s : ProfilerEnum α) : HResult × ProfilerEnum α :=
  (HResult.S_OK, { s with m_currentElement := 0 })

/-- `Clone(pInterface)`: `E_INVALIDARG` on a NULL out-pointer; otherwise
allocate a fresh `ProfilerEnum` constructed from this enumerator's own element
array (the full original sequence) and write it through the pointer. Returns
the source state (unmodified) and the clone written, if any. Allocation is
modelled as always succeeding. -/
def ProfilerEnum.Clone (s : ProfilerEnum α) (pInterfacePresent : Bool) :
    HResult × ProfilerEnum α × Option (ProfilerEnum α) :=
  if pInterfacePresent = false then (HResult.E_INVALIDARG, s, none)
  else (HResult.S_OK, s, some (ProfilerEnum.construct s.m_elements))

/-! ### Basic lemmas -/

/-- The constructor's copy loop reproduces the source sequence exactly. -/
theorem copyElements_eq (l : List α) : copyElements l = l := by
  induction l with
  | nil => rfl
  | cons x xs ih => simp [copyElements, ih]

@[simp]
theorem construct_eq (elements : List α) :
    ProfilerEnum.construct elements =
      { m_elements := elements, m_currentElement := 0, m_refCount := 1 } := by
  simp [ProfilerEnum.construct, copyElements_eq]

/-- Normal form of `Next` when both the buffer and the fetched-count slot are
present: it copies `min(requested, remaining)` elements starting at the
cursor, for every requested count including zero. -/
theorem Next_present (s : ProfilerEnum α) (req : Nat) :
    s.Next req true true =
      { hr := if min req (s.m_elements.length - s.m_currentElement) < req
          then HResult.S_FALSE else HResult.S_OK
        state := { s with m_currentElement :=
          s.m_currentElement + min req (s.m_elements.length - s.m_currentElement) }
        written := (s.m_elements.drop s.m_currentElement).take
          (min req (s.m_elements.length - s.m_currentElement))
        elementsFetched := some (min req (s.m_elements.length - s.m_currentElement)) } := by
  by_cases h : req = 0
  · subst h
    simp [ProfilerEnum.Next]
  · simp [ProfilerEnum.Next, h]

/-! ### Claims -/

/-- C8: for every enumerator state (any cursor, any sequence) and any
combination of present/absent buffer, a `Next` call with `requestedCount == 0`
returns `S_OK` (fully satisfied), writes 0 to the fetched-count slot exactly
when one is provided, does not touch the output buffer, and leaves the state
(cursor included) unchanged. -/
theorem C8_next_zero_requested (s : ProfilerEnum α) (bufferPresent fetchedPresent : Bool) :
    s.Next 0 bufferPresent fetchedPresent =
      { hr := HResult.S_OK, state := s, written := []
        elementsFetched := if fetchedPresent then some 0 else none } := by
  simp [ProfilerEnum.Next]

/-- C5: for every enumerator state, a `Next` call with `requestedCount > 1` and
an absent fetched-count slot returns `E_INVALIDARG` and leaves the state (the
cursor and the backing sequence) unchanged, whether or not a buffer is given. -/
theorem C5_next_missing_fetched_slot (s : ProfilerEnum α) (req : Nat)
    (bufferPresent : Bool) (hreq : 1 < req) :
    s.Next req bufferPresent false =
      { hr := HResult.E_INVALIDARG, state := s, written := [], elementsFetched := none } := by
  simp [ProfilerEnum.Next, hreq]

/-- Witness for C5 at a concrete input: requested count 2 on a three-element
enumerator positioned at cursor 1, no fetched-count slot. -/
theorem C5_witness :
    1 < 2 ∧
    (⟨[10, 20, 30], 1, 1⟩ : ProfilerEnum Nat).Next 2 true false =
      { hr := HResult.E_INVALIDARG, state := ⟨[10, 20, 30], 1, 1⟩, written := []
        elementsFetched := none } :=
  ⟨by decide, C5_next_missing_fetched_slot ⟨[10, 20, 30], 1, 1⟩ 2 true (by decide)⟩

/-- C7: `GetCount` fails with `E_INVALIDARG` when the output slot is absent,
and otherwise succeeds and yields the number of remaining elements
`N - cursor`; in particular constructing an enumerator from any sequence of
length `N` and immediately calling `GetCount` yields `N`. -/
theorem C7_getcount_contract (s : ProfilerEnum α)
    (hinv : s.m_currentElement ≤ s.m_elements.length) :
    s.GetCount false = (HResult.E_INVALIDARG, s, none) ∧
    s.GetCount true =
      (HResult.S_OK, s, some (s.m_elements.length - s.m_currentElement)) ∧
    ∀ xs : List α, (ProfilerEnum.construct xs).GetCount true =
      (HResult.S_OK, ProfilerEnum.construct xs, some xs.length) := by
  refine ⟨rfl, rfl, fun xs => ?_⟩
  simp [ProfilerEnum.GetCount, construct_eq]

/-- Witness for C7 at a concrete input: a two-element enumerator at cursor 1
(one remaining element). -/
theorem C7_witness :
    (⟨[5, 6], 1, 1⟩ : ProfilerEnum Nat).m_currentElement ≤
      (⟨[5, 6], 1, 1⟩ : ProfilerEnum Nat).m_elements.length ∧
    ((⟨[5, 6], 1, 1⟩ : ProfilerEnum Nat).GetCount false =
      (HResult.E_INVALIDARG, ⟨[5, 6], 1, 1⟩, none) ∧
    (⟨[5, 6], 1, 1⟩ : ProfilerEnum Nat).GetCount true =
      (HResult.S_OK, ⟨[5, 6], 1, 1⟩, some 1) ∧
    ∀ xs : List Nat, (ProfilerEnum.construct xs).GetCount true =
      (HResult.S_OK, ProfilerEnum.construct xs, some xs.length)) :=
  ⟨by decide, C7_getcount_contract ⟨[5, 6], 1, 1⟩ (by decide)⟩

/-- C10: for every enumerator state, `Clone` with an absent output handle
returns `E_INVALIDARG` (not an allocation error), allocates no new enumerator
(nothing is written), and leaves the source state — cursor, backing sequence
and reference count — unchanged. -/
theorem C10_clone_null_out (s : ProfilerEnum α) :
    s.Clone false = (HResult.E_INVALIDARG, s, none) := by
  simp [ProfilerEnum.Clone]

/-- C3: `Clone` at any cursor position succeeds, leaves the source state
unchanged, and produces a new enumerator whose backing sequence equals the
source's full original sequence, whose cursor is 0 and whose reference count
is 1, and whose `GetCount` therefore yields the full original length `N`
rather than the source's remaining count. -/
theorem C3_clone_full_copy (s : ProfilerEnum α) :
    (s.Clone true).1 = HResult.S_OK ∧
    (s.Clone true).2.1 = s ∧
    ∃ c : ProfilerEnum α, (s.Clone true).2.2 = some c ∧
      c.m_elements = s.m_elements ∧
      c.m_currentElement = 0 ∧
      c.m_refCount = 1 ∧
      c.GetCount true = (HResult.S_OK, c, some s.m_elements.length) := by
  refine ⟨rfl, rfl, ProfilerEnum.construct s.m_elements, rfl, ?_, rfl, ?_⟩
  · simp [construct_eq]
  · simp [ProfilerEnum.GetCount, construct_eq]

/-- C1: for every enumerator with backing sequence of length `N`, cursor `c`
satisfying the class invariant, and any `requestedCount > 0` with both the
buffer and the fetched-count slot present, `Next` copies exactly
`min(requestedCount, N - c)` elements into the buffer in original sequence
order starting at index `c`, advances the cursor by that amount, writes that
amount to the fetched-count slot, and returns `S_OK` (fully satisfied) when
the amount equals `requestedCount` and `S_FALSE` (partially satisfied)
otherwise — including 0 fetched with `S_FALSE` at the end of the sequence. -/
theorem C1_next_contract (s : ProfilerEnum α) (req : Nat) (hreq : 0 < req)
    (hinv : s.m_currentElement ≤ s.m_elements.length) :
    (s.Next req true true).written.length =
      min req (s.m_elements.length - s.m_currentElement) ∧
    (∀ i : Nat, ((s.Next req true true).written)[i]? =
      if i < min req (s.m_elements.length - s.m_currentElement)
      then (s.m_elements)[s.m_currentElement + i]? else none) ∧
    (s.Next req true true).state.m_elements = s.m_elements ∧
    (s.Next req true true).state.m_currentElement =
      s.m_currentElement + min req (s.m_elements.length - s.m_currentElement) ∧
    (s.Next req true true).elementsFetched =
      some (min req (s.m_elements.length - s.m_currentElement)) ∧
    ((s.Next req true true).hr =
      if min req (s.m_elements.length - s.m_currentElement) = req
      then HResult.S_OK else HResult.S_FALSE) := by
  rw [Next_present]
  have hmin : min req (s.m_elements.length - s.m_currentElement) ≤
      s.m_elements.length - s.m_currentElement := Nat.min_le_right _ _
  have hminl : min req (s.m_elements.length - s.m_currentElement) ≤ req :=
    Nat.min_le_left _ _
  refine ⟨?_, ?_, rfl, rfl, rfl, ?_⟩
  · simp only [List.length_take, List.length_drop]
    omega
  · intro i
    simp only [List.getElem?_take, List.getElem?_drop]
  · by_cases hlt : min req (s.m_elements.length - s.m_currentElement) < req
    · have hne : min req (s.m_elements.length - s.m_currentElement) ≠ req := by omega
      simp [hlt, hne]
    · have heq : min req (s.m_elements.length - s.m_currentElement) = req := by omega
      simp [hlt, heq]

/-- Witness for C1 at a concrete input: requesting 10 elements from a
five-element enumerator at cursor 3 fetches the 2 remaining elements and
signals partial satisfaction. -/
theorem C1_witness :
    0 < 10 ∧
    (⟨[1, 2, 3, 4, 5], 3, 1⟩ : ProfilerEnum Nat).m_currentElement ≤
      (⟨[1, 2, 3, 4, 5], 3, 1⟩ : ProfilerEnum Nat).m_elements.length ∧
    (((⟨[1, 2, 3, 4, 5], 3, 1⟩ : ProfilerEnum Nat).Next 10 true true).written.length = 2 ∧
    (∀ i : Nat, (((⟨[1, 2, 3, 4, 5], 3, 1⟩ : ProfilerEnum Nat).Next 10 true true).written)[i]? =
      if i < 2 then ([1, 2, 3, 4, 5] : List Nat)[3 + i]? else none) ∧
    ((⟨[1, 2, 3, 4, 5], 3, 1⟩ : ProfilerEnum Nat).Next 10 true true).state.m_elements =
      [1, 2, 3, 4, 5] ∧
    ((⟨[1, 2, 3, 4, 5], 3, 1⟩ : ProfilerEnum Nat).Next 10 true true).state.m_currentElement = 5 ∧
    ((⟨[1, 2, 3, 4, 5], 3, 1⟩ : ProfilerEnum Nat).Next 10 true true).elementsFetched = some 2 ∧
    ((⟨[1, 2, 3, 4, 5], 3, 1⟩ : ProfilerEnum Nat).Next 10 true true).hr = HResult.S_FALSE) :=
  ⟨by decide, by decide, C1_next_contract ⟨[1, 2, 3, 4, 5], 3, 1⟩ 10 (by decide) (by decide)⟩

/-- C4: for every backing sequence of length `N` and split point `k ≤ N`,
starting from a freshly constructed enumerator, `Next(k)` followed by
`Next(N - k)` (both with buffer and fetched-count slots present) writes the
same elements in the same order, concatenated, as a single `Next(N)` call
from cursor 0. -/
theorem C4_next_split (xs : List α) (k : Nat) (hk : k ≤ xs.length) :
    ((ProfilerEnum.construct xs).Next k true true).written ++
      (((ProfilerEnum.construct xs).Next k true true).state.Next
        (xs.length - k) true true).written =
      ((ProfilerEnum.construct xs).Next xs.length true true).written := by
  simp only [construct_eq, Next_present, List.drop_zero, Nat.zero_add, Nat.sub_zero,
    Nat.min_self, List.length_drop, Nat.min_eq_left hk, List.take_length]
  have h2 : (xs.drop k).take (xs.length - k) = xs.drop k := by
    rw [← List.length_drop k xs]
    exact List.take_length (xs.drop k)
  rw [h2]
  exact List.take_append_drop k xs

/-- Witness for C4 at a concrete input: splitting a five-element enumeration
at k = 3. -/
theorem C4_witness :
    3 ≤ 5 ∧
    ((ProfilerEnum.construct [1, 2, 3, 4, 5]).Next 3 true true).written ++
      (((ProfilerEnum.construct [1, 2, 3, 4, 5]).Next 3 true true).state.Next
        (([1, 2, 3, 4, 5] : List Nat).length - 3) true true).written =
      ((ProfilerEnum.construct ([1, 2, 3, 4, 5] : List Nat)).Next
        ([1, 2, 3, 4, 5] : List Nat).length true true).written :=
  ⟨by decide, C4_next_split [1, 2, 3, 4, 5] 3 (by decide)⟩

/-- C6: `Skip(m)` advances the cursor by exactly `min(m, N - c)`, keeps the
backing sequence, returns `S_OK` exactly when that amount equals `m` and
`S_FALSE` otherwise, and never returns an error for any `m`; consequently
`Skip(m)` on a fresh enumerator followed by `GetCount` yields
`max(0, N - m)`. -/
theorem C6_skip_contract (s : ProfilerEnum α) (m : Nat)
    (hinv : s.m_currentElement ≤ s.m_elements.length) :
    (s.Skip m).2.m_currentElement =
      s.m_currentElement + min m (s.m_elements.length - s.m_currentElement) ∧
    (s.Skip m).2.m_elements = s.m_elements ∧
    ((s.Skip m).1 = if min m (s.m_elements.length - s.m_currentElement) = m
      then HResult.S_OK else HResult.S_FALSE) ∧
    ((s.Skip m).1 = HResult.S_OK ∨ (s.Skip m).1 = HResult.S_FALSE) ∧
    ∀ (xs : List α) (m2 : Nat),
      (((ProfilerEnum.construct xs).Skip m2).2.GetCount true).2.2 =
        some ((max ((xs.length : Int) - (m2 : Int)) 0).toNat) := by
  have hminl : min m (s.m_elements.length - s.m_currentElement) ≤ m := Nat.min_le_left _ _
  refine ⟨rfl, rfl, ?_, ?_, ?_⟩
  · simp only [ProfilerEnum.Skip]
    by_cases hlt : min m (s.m_elements.length - s.m_currentElement) < m
    · have hne : min m (s.m_elements.length - s.m_currentElement) ≠ m := by omega
      simp [hlt, hne]
    · have heq : min m (s.m_elements.length - s.m_currentElement) = m := by omega
      simp [hlt, heq]
  · simp only [ProfilerEnum.Skip]
    by_cases hlt : min m (s.m_elements.length - s.m_currentElement) < m
    · simp [hlt]
    · simp [hlt]
  · intro xs m2
    simp [construct_eq, ProfilerEnum.Skip, ProfilerEnum.GetCount]
    omega

/-- Witness for C6 at a concrete input: skipping 4 of 3 remaining elements
clamps at the end. -/
theorem C6_witness :
    (⟨[7, 8, 9], 0, 1⟩ : ProfilerEnum Nat).m_currentElement ≤
      (⟨[7, 8, 9], 0, 1⟩ : ProfilerEnum Nat).m_elements.length ∧
    (((⟨[7, 8, 9], 0, 1⟩ : ProfilerEnum Nat).Skip 4).2.m_currentElement = 3 ∧
    ((⟨[7, 8, 9], 0, 1⟩ : ProfilerEnum Nat).Skip 4).2.m_elements = [7, 8, 9] ∧
    (((⟨[7, 8, 9], 0, 1⟩ : ProfilerEnum Nat).Skip 4).1 =
      if (3 : Nat) = 4 then HResult.S_OK else HResult.S_FALSE) ∧
    (((⟨[7, 8, 9], 0, 1⟩ : ProfilerEnum Nat).Skip 4).1 = HResult.S_OK ∨
      ((⟨[7, 8, 9], 0, 1⟩ : ProfilerEnum Nat).Skip 4).1 = HResult.S_FALSE) ∧
    ∀ (xs : List Nat) (m2 : Nat),
      (((ProfilerEnum.construct xs).Skip m2).2.GetCount true).2.2 =
        some ((max ((xs.length : Int) - (m2 : Int)) 0).toNat)) :=
  ⟨by decide, C6_skip_contract ⟨[7, 8, 9], 0, 1⟩ 4 (by decide)⟩

/-- C2 counterexample: the claim says an unsupported capability identifier
leaves the caller's output slot untouched, but `QueryInterface` writes `NULL`
through the slot before returning `E_NOINTERFACE`. Concretely, with the
enumerator's own IID 5 and requested IID 7 (neither 5 nor `IID_IUnknown`),
the call fails and the output slot is written (with the null pointer). -/
theorem C2_counterexample :
    (7 : IID) ≠ 5 ∧ (7 : IID) ≠ IID_IUnknown ∧
    ((ProfilerEnum.construct ([] : List Nat)).QueryInterface 5 7).hr =
      HResult.E_NOINTERFACE ∧
    ((ProfilerEnum.construct ([] : List Nat)).QueryInterface 5 7).written ≠ none ∧
    ((ProfilerEnum.construct ([] : List Nat)).QueryInterface 5 7).written =
      some QIWrite.nullPtr := by
  decide

/-- C2 (amended): the capability-negotiation query succeeds and returns a new
reference (incrementing the reference count) exactly when the identifier is
the enumerator's own specific capability or the universal base capability; for
every other identifier it fails with `E_NOINTERFACE` (capability not
supported), sets the caller's output slot to null, and leaves the enumerator
state (cursor, sequence, reference count) unchanged. -/
theorem C2_queryinterface_amended (s : ProfilerEnum α) (pEnumInterfaceIID id : IID) :
    (((s.QueryInterface pEnumInterfaceIID id).hr = HResult.S_OK) ↔
      (id = pEnumInterfaceIID ∨ id = IID_IUnknown)) ∧
    (if id = pEnumInterfaceIID ∨ id = IID_IUnknown then
      (s.QueryInterface pEnumInterfaceIID id).state =
        { s with m_refCount := s.m_refCount + 1 } ∧
      ((s.QueryInterface pEnumInterfaceIID id).written = some QIWrite.enumInterface ∨
        (s.QueryInterface pEnumInterfaceIID id).written = some QIWrite.iunknown)
    else
      (s.QueryInterface pEnumInterfaceIID id).hr = HResult.E_NOINTERFACE ∧
      (s.QueryInterface pEnumInterfaceIID id).state = s ∧
      (s.QueryInterface pEnumInterfaceIID id).written = some QIWrite.nullPtr) := by
  by_cases h1 : pEnumInterfaceIID = id
  · subst h1
    simp [ProfilerEnum.QueryInterface, ProfilerEnum.AddRef]
  · by_cases h2 : IID_IUnknown = id
    · subst h2
      simp [ProfilerEnum.QueryInterface, ProfilerEnum.AddRef, h1]
    · have h1' : id ≠ pEnumInterfaceIID := fun h => h1 h.symm
      have h2' : id ≠ IID_IUnknown := fun h => h2 h.symm
      simp [ProfilerEnum.QueryInterface, h1, h2, h1', h2']

/-- C9: the class invariant `cursor ≤ N` (with `0 ≤ cursor` trivial over
naturals) holds after construction and is preserved by every operation of the
protocol — `Next`, `Skip`, `Reset`, `GetCount`, `Clone` (for both the source
and the freshly written clone), `QueryInterface`, `AddRef` and `Release` — for
every argument value, including `Next` and `Skip` requests larger than the
number of remaining elements. -/
theorem C9_cursor_invariant (s : ProfilerEnum α) (xs : List α) (req m : Nat)
    (bufferPresent fetchedPresent countPresent clonePresent : Bool)
    (pEnumInterfaceIID id : IID)
    (hinv : s.m_currentElement ≤ s.m_elements.length) :
    (ProfilerEnum.construct xs).m_currentElement ≤
      (ProfilerEnum.construct xs).m_elements.length ∧
    (s.Next req bufferPresent fetchedPresent).state.m_currentElement ≤
      (s.Next req bufferPresent fetchedPresent).state.m_elements.length ∧
    (s.Skip m).2.m_currentElement ≤ (s.Skip m).2.m_elements.length ∧
    (s.Reset).2.m_currentElement ≤ (s.Reset).2.m_elements.length ∧
    (s.GetCount countPresent).2.1.m_currentElement ≤
      (s.GetCount countPresent).2.1.m_elements.length ∧
    (s.Clone clonePresent).2.1.m_currentElement ≤
      (s.Clone clonePresent).2.1.m_elements.length ∧
    (∀ c ∈ (s.Clone clonePresent).2.2,
      c.m_currentElement ≤ c.m_elements.length) ∧
    (s.QueryInterface pEnumInterfaceIID id).state.m_currentElement ≤
      (s.QueryInterface pEnumInterfaceIID id).state.m_elements.length ∧
    (s.AddRef).2.m_currentElement ≤ (s.AddRef).2.m_elements.length ∧
    (∀ t ∈ (s.Release).2, t.m_currentElement ≤ t.m_elements.length) := by
  refine ⟨?_, ?_, ?_, ?_, ?_, ?_, ?_, ?_, ?_, ?_⟩
  · simp [construct_eq]
  · simp only [ProfilerEnum.Next]
    split
    · exact hinv
    · split
      · exact hinv
      · split
        · exact hinv
        · have := Nat.min_le_right req (s.m_elements.length - s.m_currentElement)
          simp
          omega
  · simp only [ProfilerEnum.Skip]
    have := Nat.min_le_right m (s.m_elements.length - s.m_currentElement)
    simp
    omega
  · simp [ProfilerEnum.Reset]
  · simp only [ProfilerEnum.GetCount]
    split
    · exact hinv
    · exact hinv
  · simp only [ProfilerEnum.Clone]
    split
    · exact hinv
    · exact hinv
  · intro c hc
    simp only [ProfilerEnum.Clone] at hc
    split at hc
    · simp at hc
    · simp at hc
      subst hc
      simp [construct_eq]
  · simp only [ProfilerEnum.QueryInterface]
    split
    · exact hinv
    · split
      · exact hinv
      · exact hinv
  · exact hinv
  · intro t ht
    simp [ProfilerEnum.Release] at ht
    obtain ⟨-, h⟩ := ht
    subst h
    exact hinv

/-- Witness for C9 at a concrete input: a three-element enumerator at cursor 2
with reference count 2, exercised with out-of-range requests. -/
theorem C9_witness :
    (⟨[1, 2, 3], 2, 2⟩ : ProfilerEnum Nat).m_currentElement ≤
      (⟨[1, 2, 3], 2, 2⟩ : ProfilerEnum Nat).m_elements.length ∧
    ((ProfilerEnum.construct [4]).m_currentElement ≤
      (ProfilerEnum.construct ([4] : List Nat)).m_elements.length ∧
    ((⟨[1, 2, 3], 2, 2⟩ : ProfilerEnum Nat).Next 5 true true).state.m_currentElement ≤
      ((⟨[1, 2, 3], 2, 2⟩ : ProfilerEnum Nat).Next 5 true true).state.m_elements.length ∧
    ((⟨[1, 2, 3], 2, 2⟩ : ProfilerEnum Nat).Skip 7).2.m_currentElement ≤
      ((⟨[1, 2, 3], 2, 2⟩ : ProfilerEnum Nat).Skip 7).2.m_elements.length ∧
    ((⟨[1, 2, 3], 2, 2⟩ : ProfilerEnum Nat).Reset).2.m_currentElement ≤
      ((⟨[1, 2, 3], 2, 2⟩ : ProfilerEnum Nat).Reset).2.m_elements.length ∧
    ((⟨[1, 2, 3], 2, 2⟩ : ProfilerEnum Nat).GetCount true).2.1.m_currentElement ≤
      ((⟨[1, 2, 3], 2, 2⟩ : ProfilerEnum Nat).GetCount true).2.1.m_elements.length ∧
    ((⟨[1, 2, 3], 2, 2⟩ : ProfilerEnum Nat).Clone true).2.1.m_currentElement ≤
      ((⟨[1, 2, 3], 2, 2⟩ : ProfilerEnum Nat).Clone true).2.1.m_elements.length ∧
    (∀ c ∈ ((⟨[1, 2, 3], 2, 2⟩ : ProfilerEnum Nat).Clone true).2.2,
      c.m_currentElement ≤ c.m_elements.length) ∧
    ((⟨[1, 2, 3], 2, 2⟩ : ProfilerEnum Nat).QueryInterface 3 9).state.m_currentElement ≤
      ((⟨[1, 2, 3], 2, 2⟩ : ProfilerEnum Nat).QueryInterface 3 9).state.m_elements.length ∧
    ((⟨[1, 2, 3], 2, 2⟩ : ProfilerEnum Nat).AddRef).2.m_currentElement ≤
      ((⟨[1, 2, 3], 2, 2⟩ : ProfilerEnum Nat).AddRef).2.m_elements.length ∧
    (∀ t ∈ ((⟨[1, 2, 3], 2, 2⟩ : ProfilerEnum Nat).Release).2,
      t.m_currentElement ≤ t.m_elements.length)) :=
  ⟨by decide, C9_cursor_invariant ⟨[1, 2, 3], 2, 2⟩ [4] 5 7 true true true true 3 9 (by decide)⟩

end ProfilingEnumerators
